import Mathlib

/-!
Verification development for the distant directional sensor plugin
(`src/sensors/distant.cpp` of the mitsuba2 fork).

The sensor's scalar quantities are modelled by exact rationals (`ℚ`): the
claims under study are algebraic identities about the ray-generation code,
independent of floating-point rounding.  External collaborators that live
outside the sensor source file (wavelength sampling, the warp functions,
`normalize` / `coordinate_system` / `look_at`, shape sampling and
intersection) are abstract function parameters, so every theorem holds for
every implementation of those collaborators.
-/

namespace Distant

/-- 3D vector / point over exact rationals (models `Vector3f` / `Point3f`). -/
structure Vec3 where
  x : ℚ
  y : ℚ
  z : ℚ
deriving DecidableEq

def Vec3.add (a b : Vec3) : Vec3 := ⟨a.x + b.x, a.y + b.y, a.z + b.z⟩

def Vec3.sub (a b : Vec3) : Vec3 := ⟨a.x - b.x, a.y - b.y, a.z - b.z⟩

def Vec3.neg (a : Vec3) : Vec3 := ⟨-a.x, -a.y, -a.z⟩

/-- Scalar multiple `v * r` (models vector-times-scalar in the source). -/
def Vec3.smul (a : Vec3) (r : ℚ) : Vec3 := ⟨a.x * r, a.y * r, a.z * r⟩

def Vec3.dot (a b : Vec3) : ℚ := a.x * b.x + a.y * b.y + a.z * b.z

/-- Cross product (exact polynomial operation, as in enoki's `cross`). -/
def Vec3.cross (a b : Vec3) : Vec3 :=
  ⟨a.y * b.z - a.z * b.y, a.z * b.x - a.x * b.z, a.x * b.y - a.y * b.x⟩

def Vec3.zero : Vec3 := ⟨0, 0, 0⟩

/-- Affine transform: linear part given by the images of the three basis
vectors, plus a translation (models `Transform4f` restricted to its affine
action). -/
structure AffineTransform where
  mx : Vec3
  my : Vec3
  mz : Vec3
  tr : Vec3
deriving DecidableEq

/-- `transform_affine` applied to a `Vector3f`: only the linear part acts
(vectors are not translated). -/
def AffineTransform.applyVector (t : AffineTransform) (v : Vec3) : Vec3 :=
  Vec3.add (Vec3.add (t.mx.smul v.x) (t.my.smul v.y)) (t.mz.smul v.z)

/-- `transform_affine` applied to a `Point3f`: linear part plus translation. -/
def AffineTransform.applyPoint (t : AffineTransform) (p : Vec3) : Vec3 :=
  Vec3.add (t.applyVector p) t.tr

/-- Identity transform. -/
def AffineTransform.id : AffineTransform :=
  ⟨⟨1, 0, 0⟩, ⟨0, 1, 0⟩, ⟨0, 0, 1⟩, Vec3.zero⟩

/-- Scene bounding sphere (models `ScalarBoundingSphere3f`). -/
structure BoundingSphere where
  center : Vec3
  radius : ℚ
deriving DecidableEq

/-- Default-constructed bounding sphere: radius `0` signals an unbound
sensor (no `set_scene` call yet). -/
def BoundingSphere.default0 : BoundingSphere := ⟨Vec3.zero, 0⟩

/-- Ray target strategy tag (`enum class RayTargetType`). -/
inductive RayTargetType where
  | Shape
  | Point
  | None
deriving DecidableEq

/-- Ray origin strategy tag (`enum class RayOriginType`). -/
inductive RayOriginType where
  | Shape
  | BoundingSphere
deriving DecidableEq

/-- Direction sampling mode (`enum class RayDirectionType`). -/
inductive RayDirectionType where
  | Single
  | SampleWidth
  | SampleAll
deriving DecidableEq

/-- Result of `Shape::sample_position` (models `PositionSample3f`): sampled
point, geometric normal and probability density. -/
structure PositionSample where
  p : Vec3
  n : Vec3
  pdf : ℚ

/-- Result of `Shape::ray_intersect` (models the `SurfaceInteraction3f`
fields the sensor reads): hit point and validity flag. -/
structure SurfaceHit where
  p : Vec3
  valid : Bool

/-- External shape collaborator: the two capabilities the sensor consumes
(surface-position sampling with its total surface area, and ray
intersection).  Shape geometry lives outside this plugin, so the
capabilities are abstract functions. -/
structure Shape where
  sample_position : ℚ → ℚ × ℚ → PositionSample
  surface_area : ℚ
  ray_intersect : Vec3 → Vec3 → ℚ → SurfaceHit

/-- A shape object that is never consulted (stands for the
default-initialised member fields of the unused strategy variants). -/
def Shape.unused : Shape :=
  { sample_position := fun _ _ => ⟨Vec3.zero, Vec3.zero, 0⟩
    surface_area := 0
    ray_intersect := fun _ _ _ => ⟨Vec3.zero, false⟩ }

/-- External mathematical routines used by the sensor but implemented
outside `distant.cpp` (mitsuba core / enoki).  All sensor theorems are
universally quantified over them. -/
structure ExternalMath where
  /-- `sample_wavelength`: wavelength sample in `[0,1)` to
  `(wavelengths, spectral weight)`. -/
  sample_wavelength : ℚ → ℚ × ℚ
  /-- `warp::square_to_uniform_hemisphere`. -/
  square_to_uniform_hemisphere : ℚ × ℚ → Vec3
  /-- `warp::square_to_uniform_disk_concentric`. -/
  square_to_uniform_disk_concentric : ℚ × ℚ → ℚ × ℚ
  /-- `sincos(π · x)`, returned as `(sin, cos)`. -/
  sincos_pi : ℚ → ℚ × ℚ
  /-- `normalize` (involves a square root, hence external). -/
  normalize : Vec3 → Vec3
  /-- `coordinate_system`: an orthonormal frame `(s, t)` perpendicular to
  the given direction. -/
  coordinate_system : Vec3 → Vec3 × Vec3
  /-- `ScalarTransform4f::look_at origin target up`. -/
  look_at : Vec3 → Vec3 → Vec3 → AffineTransform

/-- The specialised sensor state (`DistantSensorImpl` members; the C++
template parameters `TargetType` / `OriginType` become the two tag
fields). -/
structure DistantSensorImpl where
  targetType : RayTargetType
  originType : RayOriginType
  /-- `m_world_transform`, an animated transform evaluated at a time. -/
  world_transform : ℚ → AffineTransform
  flip_directions : Bool
  direction_type : RayDirectionType
  bsphere : BoundingSphere
  ray_target_point : Vec3
  ray_target_shape : Shape
  ray_origin_shape : Shape

/-- `Ray3f`: the fields the sensor writes. -/
structure Ray where
  o : Vec3
  d : Vec3
  time : ℚ
  wavelengths : ℚ

/-- `RayDifferential3f`: a ray plus the `has_differentials` flag. -/
structure RayDifferential extends Ray where
  has_differentials : Bool

/-- Result of one `sample_ray_impl` call.  Besides the `(ray, weight)`
pair the C++ code returns, the structure exposes the intermediate target
point and the final lane mask (`active`), which enoki tracks implicitly;
they are needed to state the specification. -/
structure RaySampleResult where
  ray : Ray
  target : Vec3
  weight : ℚ
  active : Bool

/-- `Spectrum && Mask` (enoki): the weight where the mask holds, zero
elsewhere. -/
def maskWeight (w : ℚ) (m : Bool) : ℚ := if m then w else 0

/-- `RayEpsilon`.  Modelled from the spec: `math::RayEpsilon<Float>` is
defined outside this plugin (mitsuba core); the spec describes it as "a
small positive epsilon".  Its exact magnitude is irrelevant to the claims,
which depend only on it being a small positive constant. -/
def rayEpsilon : ℚ := 1 / 65536

/-- `DistantSensorImpl::set_scene`: recompute the bounding sphere from the
scene and enlarge the radius:
`radius := max(RayEpsilon, radius * (1 + RayEpsilon))`.
The scene collaborator is represented by the bounding sphere that
`scene->bbox().bounding_sphere()` returns. -/
def set_scene (s : DistantSensorImpl) (scene_bsphere : BoundingSphere) :
    DistantSensorImpl :=
  { s with
    bsphere :=
      { center := scene_bsphere.center
        radius := max rayEpsilon (scene_bsphere.radius * (1 + rayEpsilon)) } }

/-- Step 2 of `sample_ray_impl`: the local-frame direction `v0` before the
world transform is applied.  `v0` starts as `(0,0,1)`; `SampleAll`
replaces it by a hemisphere warp of the film sample; `SampleWidth`
overwrites the x and z components with `cos(π·u)` and `sin(π·u)`. -/
def sampleDirectionLocal (s : DistantSensorImpl) (ext : ExternalMath)
    (film_sample : ℚ × ℚ) : Vec3 :=
  match s.direction_type with
  | RayDirectionType.SampleAll => ext.square_to_uniform_hemisphere film_sample
  | RayDirectionType.SampleWidth =>
      ⟨(ext.sincos_pi film_sample.1).2, 0, (ext.sincos_pi film_sample.1).1⟩
  | RayDirectionType.Single => ⟨0, 0, 1⟩

/-- `DistantSensorImpl::sample_ray_impl`, the core per-sample algorithm:
1. sample the spectrum; 2. build the world-space direction
`flip_directions ? T(v0) : T(-v0)`; 3.1 sample the target point and the
weight according to the target strategy; 3.2 place the origin according to
the origin strategy (possibly narrowing the lane mask); return the ray and
the mask-zeroed weight. -/
def sample_ray_impl (s : DistantSensorImpl) (ext : ExternalMath)
    (time wavelength_sample : ℚ) (film_sample aperture_sample : ℚ × ℚ)
    (active : Bool) : RaySampleResult :=
  let wvs := ext.sample_wavelength wavelength_sample
  let trafo := s.world_transform time
  let v0 := sampleDirectionLocal s ext film_sample
  let d := if s.flip_directions then trafo.applyVector v0
           else trafo.applyVector (Vec3.neg v0)
  let tw : Vec3 × ℚ :=
    match s.targetType with
    | RayTargetType.Point => (s.ray_target_point, wvs.2)
    | RayTargetType.Shape =>
        let ps := s.ray_target_shape.sample_position time aperture_sample
        (ps.p, wvs.2 / ps.pdf / s.ray_target_shape.surface_area)
    | RayTargetType.None =>
        let off := ext.square_to_uniform_disk_concentric aperture_sample
        let perp := trafo.applyVector ⟨off.1, off.2, 0⟩
        (Vec3.add s.bsphere.center (perp.smul s.bsphere.radius),
         wvs.2 / Vec3.dot (Vec3.neg d) ⟨0, 0, 1⟩)
  let oa : Vec3 × Bool :=
    match s.originType with
    | RayOriginType.Shape =>
        let si := s.ray_origin_shape.ray_intersect tw.1 (Vec3.neg d) time
        (si.p, active && si.valid)
    | RayOriginType.BoundingSphere =>
        match s.targetType with
        | RayTargetType.None =>
            (Vec3.sub tw.1 (d.smul s.bsphere.radius), active)
        | _ => (Vec3.sub tw.1 (d.smul (2 * s.bsphere.radius)), active)
  { ray := { o := oa.1, d := d, time := time, wavelengths := wvs.1 }
    target := tw.1
    weight := maskWeight tw.2 oa.2
    active := oa.2 }

/-- `DistantSensorImpl::sample_ray`: run the core algorithm and mask the
weight with the caller's active mask (`ray.update()` recomputes cached
reciprocals only; it does not change the modelled fields). -/
def sample_ray (s : DistantSensorImpl) (ext : ExternalMath)
    (time wavelength_sample : ℚ) (film_sample aperture_sample : ℚ × ℚ)
    (active : Bool) : Ray × ℚ :=
  let r := sample_ray_impl s ext time wavelength_sample film_sample
    aperture_sample active
  (r.ray, maskWeight r.weight active)

/-- `DistantSensorImpl::sample_ray_differential`: same core algorithm;
the differential information is explicitly left unset
(`has_differentials := false`). -/
def sample_ray_differential (s : DistantSensorImpl) (ext : ExternalMath)
    (time wavelength_sample : ℚ) (film_sample aperture_sample : ℚ × ℚ)
    (active : Bool) : RayDifferential × ℚ :=
  let r := sample_ray_impl s ext time wavelength_sample film_sample
    aperture_sample active
  ({ toRay := r.ray, has_differentials := false }, maskWeight r.weight active)

/-! ### Construction-time model -/

/-- The value bound to the `ray_target` property: either a 3D point
literal, or an object reference.  An object reference carries the result
of the `dynamic_cast<Shape *>`: `some sh` when the referenced object is a
shape, `none` when it is not. -/
inductive RayTargetProp where
  | point (p : Vec3)
  | object (sh : Option Shape)

/-- The configuration bag consumed at construction (the recognised
properties of the plugin).  `ray_origin` carries the `dynamic_cast`
result like `RayTargetProp.object`.  `orient` models the property named
"orientation" in the plugin.  `to_world` is the explicit sensor-to-world
transform; its default handling (identity when absent) is modelled from
the spec, since the base `Sensor` constructor lives outside this file's
sources. -/
structure Properties where
  ray_target : Option RayTargetProp
  ray_origin : Option (Option Shape)
  direction : Option Vec3
  orient : Option Vec3
  to_world : Option (ℚ → AffineTransform)
  flip_directions : Option Bool
  film_size : ℕ × ℕ

/-- Target-strategy selection in the `DistantSensor` constructor: absent →
`None`; a point literal (the `props.point3f` probe succeeds) → `Point`;
any other value (the probe throws, caught) → `Shape`. -/
def selectTargetType (props : Properties) : RayTargetType :=
  match props.ray_target with
  | Option.none => RayTargetType.None
  | some (RayTargetProp.point _) => RayTargetType.Point
  | some (RayTargetProp.object _) => RayTargetType.Shape

/-- Origin-strategy selection in the `DistantSensor` constructor: the
property present → `Shape`, absent → `BoundingSphere`. -/
def selectOriginType (props : Properties) : RayOriginType :=
  match props.ray_origin with
  | some _ => RayOriginType.Shape
  | Option.none => RayOriginType.BoundingSphere

/-- Direction-mode selection in the `DistantSensorImpl` constructor, from
the film size: `(1,1)` → `Single`; otherwise height `1` → `SampleWidth`;
otherwise `SampleAll`. -/
def selectDirectionType (film_size : ℕ × ℕ) : RayDirectionType :=
  if film_size = (1, 1) then RayDirectionType.Single
  else if film_size.2 = 1 then RayDirectionType.SampleWidth
  else RayDirectionType.SampleAll

def errMsgConflict : String :=
  "Only one of the parameters direction and to_world can be specified at the same time!"

def errMsgTarget : String :=
  "Invalid parameter ray_target, must be a Point3f or a Shape."

def errMsgOrigin : String :=
  "Invalid parameter ray_origin, must be a Shape."

def errMsgMissing : String :=
  "Property missing for the selected strategy."

/-- World-transform construction in the `DistantSensorImpl` constructor.
`base` is the transform inherited from the base `Sensor` (the `to_world`
property, or the identity when absent).  When `direction` is given:
specifying `to_world` too is a fatal error; the direction is normalised;
the up vector is `normalize(cross(direction, orientation))` when the
orientation property is present, else the second `coordinate_system`
axis; the transform is `look_at(0, direction, up)`, constant in time. -/
def mkWorldTransform (props : Properties) (ext : ExternalMath)
    (base : ℚ → AffineTransform) : Except String (ℚ → AffineTransform) :=
  match props.direction with
  | Option.none => Except.ok base
  | some dvec =>
      match props.to_world with
      | some _ => Except.error errMsgConflict
      | Option.none =>
          let dirn := ext.normalize dvec
          let up : Vec3 :=
            match props.orient with
            | some ov => ext.normalize (Vec3.cross dirn ov)
            | Option.none => (ext.coordinate_system dirn).2
          Except.ok (fun _ => ext.look_at Vec3.zero dirn up)

/-- Target resolution in the `DistantSensorImpl` constructor: for the
`Point` variant read the point literal; for the `Shape` variant resolve
the object and fail fatally when the `dynamic_cast<Shape *>` yields null;
for `None` nothing is read. -/
def mkTarget (tt : RayTargetType) (props : Properties) :
    Except String (Vec3 × Shape) :=
  match tt with
  | RayTargetType.Point =>
      match props.ray_target with
      | some (RayTargetProp.point p) => Except.ok (p, Shape.unused)
      | _ => Except.error errMsgMissing
  | RayTargetType.Shape =>
      match props.ray_target with
      | some (RayTargetProp.object (some sh)) => Except.ok (Vec3.zero, sh)
      | some (RayTargetProp.object Option.none) => Except.error errMsgTarget
      | _ => Except.error errMsgMissing
  | RayTargetType.None => Except.ok (Vec3.zero, Shape.unused)

/-- Origin resolution in the `DistantSensorImpl` constructor: for the
`Shape` variant resolve the object, failing fatally when the
`dynamic_cast<Shape *>` yields null; for `BoundingSphere` nothing is
read. -/
def mkOrigin (ot : RayOriginType) (props : Properties) :
    Except String Shape :=
  match ot with
  | RayOriginType.Shape =>
      match props.ray_origin with
      | some (some sh) => Except.ok sh
      | some Option.none => Except.error errMsgOrigin
      | Option.none => Except.error errMsgMissing
  | RayOriginType.BoundingSphere => Except.ok Shape.unused

/-- The transform the base `Sensor` constructor stores.  Modelled from
the spec: `m_world_transform` is "built once at construction either from
an explicit transform parameter" (`to_world`) or defaults to the
identity; the base `Sensor` class lives outside this file's sources. -/
def baseTransform (props : Properties) : ℚ → AffineTransform :=
  match props.to_world with
  | some t => t
  | Option.none => fun _ => AffineTransform.id

/-- The `DistantSensorImpl` constructor: read `flip_directions`
(default `false`), select the direction mode from the film size, build
the world transform, resolve target and origin.  The bounding sphere
starts default-constructed (radius `0`, signalling "unbound") until
`set_scene` runs. -/
def mkDistantSensorImpl (tt : RayTargetType) (ot : RayOriginType)
    (props : Properties) (ext : ExternalMath) :
    Except String DistantSensorImpl :=
  let flip := props.flip_directions.getD false
  let dirType := selectDirectionType props.film_size
  match mkWorldTransform props ext (baseTransform props) with
  | Except.error msg => Except.error msg
  | Except.ok trafo =>
      match mkTarget tt props with
      | Except.error msg => Except.error msg
      | Except.ok tp =>
          match mkOrigin ot props with
          | Except.error msg => Except.error msg
          | Except.ok osh =>
              Except.ok
                { targetType := tt
                  originType := ot
                  world_transform := trafo
                  flip_directions := flip
                  direction_type := dirType
                  bsphere := BoundingSphere.default0
                  ray_target_point := tp.1
                  ray_target_shape := tp.2
                  ray_origin_shape := osh }

/-- `DistantSensor::expand`: dispatch on the selected strategy tags and
construct the matching specialised implementation. -/
def expandDistantSensor (props : Properties) (ext : ExternalMath) :
    Except String DistantSensorImpl :=
  mkDistantSensorImpl (selectTargetType props) (selectOriginType props)
    props ext

/-! ### Concrete instances used by witnesses and counterexamples -/

/-- A concrete instantiation of the external routines: wavelength sampler
with unit spectral weight, trivial warps.  Used only to evaluate theorems
at concrete inputs. -/
def cExt : ExternalMath :=
  { sample_wavelength := fun _ => (1 / 2, 1)
    square_to_uniform_hemisphere := fun p => ⟨p.1, p.2, 1⟩
    square_to_uniform_disk_concentric := fun p => p
    sincos_pi := fun _ => (0, 1)
    normalize := fun v => v
    coordinate_system := fun _ => (⟨1, 0, 0⟩, ⟨0, 1, 0⟩)
    look_at := fun _ _ _ => AffineTransform.id }

/-- A rational rotation about the x-axis (cos = 3/5, sin = 4/5): an
orthogonal world transform that does not fix the z-axis. -/
def cRotX : AffineTransform :=
  ⟨⟨1, 0, 0⟩, ⟨0, 3/5, 4/5⟩, ⟨0, -4/5, 3/5⟩, Vec3.zero⟩

/-- Sensor with no target, bounding-sphere origin, 1×1 film, identity
world transform, unit bounding sphere. -/
def cSensorId : DistantSensorImpl :=
  { targetType := RayTargetType.None
    originType := RayOriginType.BoundingSphere
    world_transform := fun _ => AffineTransform.id
    flip_directions := false
    direction_type := RayDirectionType.Single
    bsphere := ⟨Vec3.zero, 1⟩
    ray_target_point := Vec3.zero
    ray_target_shape := Shape.unused
    ray_origin_shape := Shape.unused }

/-- Same sensor as `cSensorId` but with the rotated world transform
`cRotX`. -/
def cSensorRot : DistantSensorImpl :=
  { cSensorId with world_transform := fun _ => cRotX }

/-- A concrete target shape: constant position sample with density 2 and
surface area 3, always-hitting intersection. -/
def cShapeT : Shape :=
  { sample_position := fun _ _ => ⟨⟨1, 2, 3⟩, ⟨0, 0, 1⟩, 2⟩
    surface_area := 3
    ray_intersect := fun _ _ _ => ⟨Vec3.zero, true⟩ }

/-- Sensor with a shape target (`cShapeT`) and bounding-sphere origin. -/
def cSensorShapeT : DistantSensorImpl :=
  { cSensorId with
    targetType := RayTargetType.Shape
    ray_target_shape := cShapeT }

/-- Sensor with a point target and a shape origin whose intersection
always misses (`Shape.unused` reports invalid hits). -/
def cSensorMiss : DistantSensorImpl :=
  { cSensorId with
    targetType := RayTargetType.Point
    originType := RayOriginType.Shape }

/-- A configuration bag with every property absent and a 1×1 film. -/
def cPropsPlain : Properties :=
  { ray_target := Option.none
    ray_origin := Option.none
    direction := Option.none
    orient := Option.none
    to_world := Option.none
    flip_directions := Option.none
    film_size := (1, 1) }

/-- A configuration whose `ray_target` references an object that is not a
shape (the `dynamic_cast` fails). -/
def cPropsBadTarget : Properties :=
  { cPropsPlain with ray_target := some (RayTargetProp.object Option.none) }

/-- A configuration whose `ray_origin` references an object that is not a
shape. -/
def cPropsBadOrigin : Properties :=
  { cPropsPlain with ray_origin := some Option.none }

/-! ### Claim theorems -/

/-- C9: for identical inputs and identical sensor state, `sample_ray` and
`sample_ray_differential` produce rays with equal origin, direction, time
and wavelengths, and equal weight; the differential ray always has
`has_differentials = false`. -/
theorem C9_differential_agreement (s : DistantSensorImpl)
    (ext : ExternalMath) (t w : ℚ) (fs as : ℚ × ℚ) (act : Bool) :
    (sample_ray s ext t w fs as act).1.o
        = (sample_ray_differential s ext t w fs as act).1.toRay.o ∧
    (sample_ray s ext t w fs as act).1.d
        = (sample_ray_differential s ext t w fs as act).1.toRay.d ∧
    (sample_ray s ext t w fs as act).1.time
        = (sample_ray_differential s ext t w fs as act).1.toRay.time ∧
    (sample_ray s ext t w fs as act).1.wavelengths
        = (sample_ray_differential s ext t w fs as act).1.toRay.wavelengths ∧
    (sample_ray s ext t w fs as act).2
        = (sample_ray_differential s ext t w fs as act).2 ∧
    (sample_ray_differential s ext t w fs as act).1.has_differentials
        = false :=
  ⟨rfl, rfl, rfl, rfl, rfl, rfl⟩

/-- C5: the direction-sampling mode is a total function of the film
resolution: `(1,1)` selects `Single`, height `1` with width `> 1` selects
the planar-sweep mode (`SampleWidth`), and every other positive
resolution — including width `1` with height `> 1` — selects the
hemisphere mode (`SampleAll`). -/
theorem C5_direction_mode (w h : ℕ) (hw : 0 < w) (hh : 0 < h) :
    (selectDirectionType (w, h) = RayDirectionType.Single ↔ w = 1 ∧ h = 1) ∧
    (selectDirectionType (w, h) = RayDirectionType.SampleWidth
        ↔ h = 1 ∧ 1 < w) ∧
    (selectDirectionType (w, h) = RayDirectionType.SampleAll ↔ 1 < h) := by
  unfold selectDirectionType
  split_ifs with h1 h2 <;>
    simp_all [Prod.ext_iff] <;> omega

/-- C5 witness: a 3×1 film selects the planar-sweep mode. -/
theorem C5_witness :
    selectDirectionType (3, 1) = RayDirectionType.SampleWidth
      ↔ 1 = 1 ∧ 1 < 3 :=
  (C5_direction_mode 3 1 (by decide) (by decide)).2.1

/-- C2: with the `BoundingSphere` origin specification, the ray origin is
`target - direction · (k · bsphereRadius)` with `k = 1` for the `None`
target specification and `k = 2` otherwise, and the sample's lane mask is
returned unchanged (the placement never invalidates the sample). -/
theorem C2_bsphere_origin (s : DistantSensorImpl) (ext : ExternalMath)
    (t w : ℚ) (fs as : ℚ × ℚ) (act : Bool)
    (ho : s.originType = RayOriginType.BoundingSphere) :
    (sample_ray_impl s ext t w fs as act).ray.o
        = Vec3.sub (sample_ray_impl s ext t w fs as act).target
            ((sample_ray_impl s ext t w fs as act).ray.d.smul
              ((if s.targetType = RayTargetType.None then 1 else 2)
                * s.bsphere.radius)) ∧
    (sample_ray_impl s ext t w fs as act).active = act := by
  rcases hT : s.targetType <;>
    simp [sample_ray_impl, ho, hT, one_mul]

/-- C2 witness: concrete evaluation on the identity sensor. -/
theorem C2_witness :
    cSensorId.originType = RayOriginType.BoundingSphere ∧
    ((sample_ray_impl cSensorId cExt 0 0 (0, 0) (0, 0) true).ray.o
        = Vec3.sub (sample_ray_impl cSensorId cExt 0 0 (0, 0) (0, 0) true).target
            ((sample_ray_impl cSensorId cExt 0 0 (0, 0) (0, 0) true).ray.d.smul
              ((if cSensorId.targetType = RayTargetType.None then 1 else 2)
                * cSensorId.bsphere.radius)) ∧
    (sample_ray_impl cSensorId cExt 0 0 (0, 0) (0, 0) true).active = true) :=
  ⟨rfl, C2_bsphere_origin cSensorId cExt 0 0 (0, 0) (0, 0) true rfl⟩

/-- C6: in `Single` mode the returned world-space direction equals the
world transform applied to `-(0,0,1)` when `flip_directions` is false and
to `(0,0,1)` when it is true, and it is invariant to the film sample (and
the other per-sample inputs). -/
theorem C6_single_direction (s : DistantSensorImpl) (ext : ExternalMath)
    (t w w' : ℚ) (fs fs' as as' : ℚ × ℚ) (act act' : Bool)
    (hd : s.direction_type = RayDirectionType.Single) :
    (sample_ray s ext t w fs as act).1.d
        = (if s.flip_directions then
             (s.world_transform t).applyVector ⟨0, 0, 1⟩
           else (s.world_transform t).applyVector (Vec3.neg ⟨0, 0, 1⟩)) ∧
    (sample_ray s ext t w fs as act).1.d
        = (sample_ray s ext t w' fs' as' act').1.d := by
  cases hf : s.flip_directions <;>
    simp [sample_ray, sample_ray_impl, sampleDirectionLocal, hd, hf]

/-- C6 witness: the identity sensor (non-flipped) yields direction
`(0,0,-1)` for any film sample. -/
theorem C6_witness :
    cSensorId.direction_type = RayDirectionType.Single ∧
    ((sample_ray cSensorId cExt 0 0 (1/3, 1/4) (0, 0) true).1.d
        = (if cSensorId.flip_directions then
             (cSensorId.world_transform 0).applyVector ⟨0, 0, 1⟩
           else (cSensorId.world_transform 0).applyVector
             (Vec3.neg ⟨0, 0, 1⟩)) ∧
    (sample_ray cSensorId cExt 0 0 (1/3, 1/4) (0, 0) true).1.d
        = (sample_ray cSensorId cExt 0 0 (2/3, 0) (1, 1) false).1.d) :=
  ⟨rfl, C6_single_direction cSensorId cExt 0 0 0 (1/3, 1/4) (2/3, 0)
    (0, 0) (1, 1) true false rfl⟩

/-- C1 counterexample: under the `None` target specification with the
rotated world transform `cRotX`, the returned weight (`5/3`) differs from
the spectral weight divided by the cosine between the sampled direction
and the sensor axis (the world transform applied to the local z-axis),
which is `1` here — so the claim's reading of `cos(θ)` fails for a
general world transform. -/
theorem C1_counterexample :
    (sample_ray cSensorRot cExt 0 0 (0, 0) (0, 0) true).2
      ≠ (cExt.sample_wavelength 0).2
        / Vec3.dot
            (Vec3.neg (sample_ray cSensorRot cExt 0 0 (0, 0) (0, 0) true).1.d)
            ((cSensorRot.world_transform 0).applyVector ⟨0, 0, 1⟩) := by
  norm_num [sample_ray, sample_ray_impl, sampleDirectionLocal, maskWeight,
    cSensorRot, cSensorId, cExt, cRotX, AffineTransform.applyVector,
    AffineTransform.id, Vec3.dot, Vec3.neg, Vec3.add, Vec3.smul, Vec3.sub,
    Vec3.zero]

/-- C1 (amended): under the `None` target specification, for every sample
left active, the returned weight equals the spectral weight divided by
`dot(-direction, (0,0,1))` where `(0,0,1)` is the constant world-frame
z-axis (the z-component of the negated world-space direction), for every
world transform, film sample and aperture sample. -/
theorem C1_none_target_weight (s : DistantSensorImpl) (ext : ExternalMath)
    (t w : ℚ) (fs as : ℚ × ℚ) (act : Bool)
    (ht : s.targetType = RayTargetType.None)
    (hv : (sample_ray_impl s ext t w fs as act).active = true) :
    (sample_ray s ext t w fs as act).2
      = (ext.sample_wavelength w).2
        / Vec3.dot (Vec3.neg (sample_ray s ext t w fs as act).1.d)
            ⟨0, 0, 1⟩ := by
  rcases hO : s.originType <;>
    simp only [sample_ray, sample_ray_impl, ht, hO, maskWeight] at hv ⊢ <;>
    simp_all

/-- C1 witness: concrete evaluation of the amended claim on the identity
sensor. -/
theorem C1_witness :
    cSensorId.targetType = RayTargetType.None ∧
    (sample_ray_impl cSensorId cExt 0 0 (0, 0) (0, 0) true).active = true ∧
    (sample_ray cSensorId cExt 0 0 (0, 0) (0, 0) true).2
      = (cExt.sample_wavelength 0).2
        / Vec3.dot
            (Vec3.neg (sample_ray cSensorId cExt 0 0 (0, 0) (0, 0) true).1.d)
            ⟨0, 0, 1⟩ :=
  ⟨rfl, rfl,
    C1_none_target_weight cSensorId cExt 0 0 (0, 0) (0, 0) true rfl rfl⟩

/-- C3: with the `Shape` origin specification, whenever the probe ray —
cast from the target point along the negated ray direction — does not
intersect the origin shape, the sample is marked invalid and the weight
returned by `sample_ray` is exactly zero.  (`sample_ray` is a total
function: the miss never raises an error, and each call depends only on
its own arguments.) -/
theorem C3_shape_origin_miss (s : DistantSensorImpl) (ext : ExternalMath)
    (t w : ℚ) (fs as : ℚ × ℚ) (act : Bool)
    (ho : s.originType = RayOriginType.Shape)
    (hmiss : (s.ray_origin_shape.ray_intersect
        (sample_ray_impl s ext t w fs as act).target
        (Vec3.neg (sample_ray_impl s ext t w fs as act).ray.d) t).valid
        = false) :
    (sample_ray_impl s ext t w fs as act).active = false ∧
    (sample_ray s ext t w fs as act).2 = 0 := by
  simp only [sample_ray, sample_ray_impl, ho, maskWeight] at hmiss ⊢
  simp_all

/-- C3 witness: the always-missing origin shape invalidates the sample
and zeroes the weight. -/
theorem C3_witness :
    cSensorMiss.originType = RayOriginType.Shape ∧
    (cSensorMiss.ray_origin_shape.ray_intersect
        (sample_ray_impl cSensorMiss cExt 0 0 (0, 0) (0, 0) true).target
        (Vec3.neg
          (sample_ray_impl cSensorMiss cExt 0 0 (0, 0) (0, 0) true).ray.d)
        0).valid = false ∧
    ((sample_ray_impl cSensorMiss cExt 0 0 (0, 0) (0, 0) true).active
        = false ∧
     (sample_ray cSensorMiss cExt 0 0 (0, 0) (0, 0) true).2 = 0) :=
  ⟨rfl, rfl,
    C3_shape_origin_miss cSensorMiss cExt 0 0 (0, 0) (0, 0) true rfl rfl⟩

/-- C7: with the `Shape` target specification, for every sample left
active the returned weight equals the spectral weight divided by the
product of the position-sampling probability density and the shape's
surface area; no cosine foreshortening factor against the ray direction
appears in the weight. -/
theorem C7_shape_target_weight (s : DistantSensorImpl) (ext : ExternalMath)
    (t w : ℚ) (fs as : ℚ × ℚ) (act : Bool)
    (ht : s.targetType = RayTargetType.Shape)
    (hv : (sample_ray_impl s ext t w fs as act).active = true) :
    (sample_ray s ext t w fs as act).2
      = (ext.sample_wavelength w).2
        / ((s.ray_target_shape.sample_position t as).pdf
            * s.ray_target_shape.surface_area) := by
  rcases hO : s.originType <;>
    simp only [sample_ray, sample_ray_impl, ht, hO, maskWeight] at hv ⊢ <;>
    simp_all [div_div]

/-- C7 witness: concrete evaluation with density 2 and surface area 3:
the returned weight is `1 / 6`. -/
theorem C7_witness :
    cSensorShapeT.targetType = RayTargetType.Shape ∧
    (sample_ray_impl cSensorShapeT cExt 0 0 (0, 0) (0, 0) true).active
        = true ∧
    (sample_ray cSensorShapeT cExt 0 0 (0, 0) (0, 0) true).2
      = (cExt.sample_wavelength 0).2
        / ((cSensorShapeT.ray_target_shape.sample_position 0 (0, 0)).pdf
            * cSensorShapeT.ray_target_shape.surface_area) :=
  ⟨rfl, rfl,
    C7_shape_target_weight cSensorShapeT cExt 0 0 (0, 0) (0, 0) true rfl rfl⟩

/-- C8 counterexample: for a degenerate scene of bounding-sphere radius
zero, the stored radius is `RayEpsilon` (the code inflates first and
clamps second), not `RayEpsilon · (1 + RayEpsilon)` as "clamp to at least
epsilon, then inflate by `(1 + epsilon)`" would give. -/
theorem C8_counterexample :
    (set_scene cSensorId ⟨Vec3.zero, 0⟩).bsphere.radius
      ≠ max rayEpsilon 0 * (1 + rayEpsilon) := by
  norm_num [set_scene, rayEpsilon]

/-- C8 (amended): after `set_scene` the stored bounding-sphere radius
equals the scene's bounding-sphere radius inflated by `(1 + RayEpsilon)`
and then clamped to at least `RayEpsilon`
(`max(RayEpsilon, r · (1 + RayEpsilon))`); in particular it is strictly
positive even for a degenerate scene of radius zero, and the center is
stored unchanged.  (`sample_ray` / `sample_ray_differential` take the
sensor state immutably and return only a sample, so no ray-generation
call modifies the stored sphere.) -/
theorem C8_set_scene_radius (s : DistantSensorImpl)
    (sb : BoundingSphere) :
    (set_scene s sb).bsphere.radius
        = max rayEpsilon (sb.radius * (1 + rayEpsilon)) ∧
    0 < (set_scene s sb).bsphere.radius ∧
    (set_scene s sb).bsphere.center = sb.center := by
  refine ⟨rfl, ?_, rfl⟩
  have h : (0 : ℚ) < rayEpsilon := by norm_num [rayEpsilon]
  exact lt_of_lt_of_le h (le_max_left _ _)

/-- C4: construction maps every configuration to exactly one of the six
strategy variants: `ray_target` absent → target `None`; a point literal →
`Point`; any other object → `Shape` (fatal error when the object is not a
shape); `ray_origin` absent → origin `BoundingSphere`; present → `Shape`
(fatal error when the object is not a shape). -/
theorem C4_strategy_selection (props : Properties) (ext : ExternalMath) :
    (props.ray_target = Option.none →
        selectTargetType props = RayTargetType.None) ∧
    (∀ p, props.ray_target = some (RayTargetProp.point p) →
        selectTargetType props = RayTargetType.Point) ∧
    (∀ sh, props.ray_target = some (RayTargetProp.object sh) →
        selectTargetType props = RayTargetType.Shape) ∧
    (props.ray_origin = Option.none →
        selectOriginType props = RayOriginType.BoundingSphere) ∧
    (∀ sh, props.ray_origin = some sh →
        selectOriginType props = RayOriginType.Shape) ∧
    (props.ray_target = some (RayTargetProp.object Option.none) →
        ∃ msg, expandDistantSensor props ext = Except.error msg) ∧
    (props.ray_origin = some Option.none →
        ∃ msg, expandDistantSensor props ext = Except.error msg) := by
  refine ⟨?_, ?_, ?_, ?_, ?_, ?_, ?_⟩
  · intro h; simp [selectTargetType, h]
  · intro p h; simp [selectTargetType, h]
  · intro sh h; simp [selectTargetType, h]
  · intro h; simp [selectOriginType, h]
  · intro sh h; simp [selectOriginType, h]
  · intro h
    simp only [expandDistantSensor, mkDistantSensorImpl]
    cases hW : mkWorldTransform props ext (baseTransform props) with
    | error msg => exact ⟨msg, by simp⟩
    | ok trafo =>
        have hT : mkTarget (selectTargetType props) props
            = Except.error errMsgTarget := by
          simp [selectTargetType, h, mkTarget]
        simp [hT]
  · intro h
    simp only [expandDistantSensor, mkDistantSensorImpl]
    cases hW : mkWorldTransform props ext (baseTransform props) with
    | error msg => exact ⟨msg, by simp⟩
    | ok trafo =>
        cases hT : mkTarget (selectTargetType props) props with
        | error msg => exact ⟨msg, by simp [hT]⟩
        | ok tp =>
            have hO : mkOrigin (selectOriginType props) props
                = Except.error errMsgOrigin := by
              simp [selectOriginType, h, mkOrigin]
            simp [hT, hO]

/-- C4 witness: the configuration whose `ray_target` is an object that is
not a shape reaches a fatal construction error. -/
theorem C4_witness :
    cPropsBadTarget.ray_target = some (RayTargetProp.object Option.none) ∧
    ∃ msg, expandDistantSensor cPropsBadTarget cExt = Except.error msg :=
  ⟨rfl, (C4_strategy_selection cPropsBadTarget cExt).2.2.2.2.2.1 rfl⟩

/-- C10: when `direction` is absent, the orientation property has no
effect: a configuration and its orientation-modified copy construct equal
sensor implementations (same world transform), and the rays they generate
agree on every input. -/
theorem C10_orient_independence (props : Properties) (ext : ExternalMath)
    (o' : Option Vec3) (tt : RayTargetType) (ot : RayOriginType)
    (hd : props.direction = Option.none) :
    mkDistantSensorImpl tt ot { props with orient := o' } ext
        = mkDistantSensorImpl tt ot props ext ∧
    expandDistantSensor { props with orient := o' } ext
        = expandDistantSensor props ext ∧
    (∀ t w fs as act,
      Except.map (fun si => sample_ray si ext t w fs as act)
          (expandDistantSensor { props with orient := o' } ext)
        = Except.map (fun si => sample_ray si ext t w fs as act)
          (expandDistantSensor props ext)) := by
  have hmk : ∀ tt' ot',
      mkDistantSensorImpl tt' ot' { props with orient := o' } ext
        = mkDistantSensorImpl tt' ot' props ext := by
    intro tt' ot'
    simp [mkDistantSensorImpl, mkWorldTransform, baseTransform, hd,
      mkTarget, mkOrigin, selectDirectionType]
  have hexp : expandDistantSensor { props with orient := o' } ext
      = expandDistantSensor props ext := by
    simp only [expandDistantSensor, selectTargetType, selectOriginType]
    exact hmk _ _
  exact ⟨hmk tt ot, hexp, fun t w fs as act => by rw [hexp]⟩

/-- C10 witness: concrete evaluation on the plain configuration with an
added orientation value. -/
theorem C10_witness :
    cPropsPlain.direction = Option.none ∧
    mkDistantSensorImpl RayTargetType.None RayOriginType.BoundingSphere
        { cPropsPlain with orient := some ⟨1, 0, 0⟩ } cExt
      = mkDistantSensorImpl RayTargetType.None RayOriginType.BoundingSphere
        cPropsPlain cExt :=
  ⟨rfl,
    (C10_orient_independence cPropsPlain cExt (some ⟨1, 0, 0⟩)
      RayTargetType.None RayOriginType.BoundingSphere rfl).1⟩

end Distant
